import Mathlib

/-!
Verification of the API usage limiter and credentials manager of the
Supervised_Learning_Energy repository
(`project_script_files/api_limits.py`, `project_script_files/api_credentials.py`).

The Python code is shallowly embedded:

* `Json` models the JSON values that `json.load` can return (integers only for
  numerics; non-integer floats do not occur in any record the code writes).
* `PyErr` models the Python exceptions that can escape the limiter methods:
  `KeyError` from `d['date']` on a dict without that key, `TypeError` from
  subscripting a non-dict with a string key or comparing/adding a non-number,
  and `ZeroDivisionError` from the `st.sidebar.progress` ratio when the user
  limit is zero.
* `Diag` models the non-fatal operator-facing messages emitted through
  `st.warning` / `st.error` (these never abort the caller).
* `LimState` bundles the `APILimiter` instance fields (`daily_user_limit`,
  `daily_total_limit`, `usage_data`), the Streamlit session counter
  `st.session_state.user_api_calls`, and the persisted storage file.
  The file is `none` when missing, `some none` when it exists but reading or
  parsing it raises, and `some (some j)` when it parses to the JSON value `j`.
* Each limiter method becomes a function on `LimState` returning
  `Except PyErr _`, translated clause by clause from the source; `st.session_state`
  mutations become field updates, `_save_usage_data` becomes an update of the
  `file` field (the source catches write errors and keeps the in-memory state;
  the claims under verification only concern the successful-write path).
-/

inductive Json where
  | null : Json
  | bool (b : Bool) : Json
  | num (n : Int) : Json
  | str (s : String) : Json
  | arr (xs : List Json) : Json
  | obj (fields : List (String × Json)) : Json

inductive PyErr where
  | keyError (k : String) : PyErr
  | typeError : PyErr
  | zeroDivisionError : PyErr
deriving DecidableEq

inductive Diag where
  | warning (msg : String) : Diag
  | errorMsg (msg : String) : Diag
deriving DecidableEq

/-- Python `d[k]` for a string key `k`: value of the key in a dict
(`KeyError` when absent), `TypeError` on any non-dict JSON value. -/
def Json.getItem : Json → String → Except PyErr Json
  | .obj fields, k =>
    match fields.lookup k with
    | some v => Except.ok v
    | none => Except.error (PyErr.keyError k)
  | _, _ => Except.error PyErr.typeError

/-- Replace the value of key `k` in an association list, keeping position,
or append at the end — Python dict assignment order semantics. -/
def setField : List (String × Json) → String → Json → List (String × Json)
  | [], k, v => [(k, v)]
  | (k', v') :: rest, k, v =>
    if k' == k then (k', v) :: rest else (k', v') :: setField rest k v

/-- Python `d[k] = v` for a string key: updates a dict, `TypeError` otherwise. -/
def Json.setItem : Json → String → Json → Except PyErr Json
  | .obj fields, k, v => Except.ok (Json.obj (setField fields k v))
  | _, _, _ => Except.error PyErr.typeError

/-- Python `j == s` for a JSON value against a `str`: string equality when `j`
is a string, `False` for every other type (Python cross-type `==`). -/
def pyEqStr : Json → String → Bool
  | .str t, s => t == s
  | _, _ => false

/-- Python `j >= m` against an int: numeric comparison for numbers
(`bool` is an int subclass in Python), `TypeError` otherwise. -/
def jsonGeInt : Json → Int → Except PyErr Bool
  | .num n, m => Except.ok (decide (n ≥ m))
  | .bool b, m => Except.ok (decide ((if b then (1 : Int) else 0) ≥ m))
  | _, _ => Except.error PyErr.typeError

/-- Python `j + 1`: numbers (and bools) increment, `TypeError` otherwise. -/
def jsonAdd1 : Json → Except PyErr Json
  | .num n => Except.ok (Json.num (n + 1))
  | .bool b => Except.ok (Json.num ((if b then (1 : Int) else 0) + 1))
  | _ => Except.error PyErr.typeError

/-- The record shape the limiter itself writes:
`{'date': d, 'total_calls': n}`. -/
def mkRecord (d : String) (n : Int) : Json :=
  Json.obj [("date", Json.str d), ("total_calls", Json.num n)]

/-- `APILimiter` instance state plus its ambient Streamlit session counter and
the persisted storage file (see module docstring for the `file` encoding). -/
structure LimState where
  daily_user_limit : Int
  daily_total_limit : Int
  usage_data : Json
  user_api_calls : Int
  file : Option (Option Json)

/-- The fixed text of `st.error(f"Error loading API usage data: ...")`
(the interpolated exception text is not modelled). -/
def loadErrMsg : String := "Error loading API usage data"

/-- `st.warning` text of the per-identity quota message in `check_limits`. -/
def userLimitMsg (n : Int) : String :=
  "You\x27ve reached your daily limit of " ++ toString n ++
    " API calls. Please try again tomorrow."

/-- `st.error` text of the global quota message in `check_limits`. -/
def totalLimitMsg (n : Int) : String :=
  "The total daily limit of " ++ toString n ++
    " API calls has been reached. Please try again tomorrow."

/-- `APILimiter._load_usage_data`: returns the parsed JSON verbatim when the
file exists and parses; a fresh record dated today when the file is missing
(silently) or when reading raises (with an `st.error` diagnostic). All
exceptions are caught, so the function is total. -/
def load_usage_data (today : String) (file : Option (Option Json)) :
    Json × List Diag :=
  match file with
  | none => (mkRecord today 0, [])
  | some none => (mkRecord today 0, [Diag.errorMsg loadErrMsg])
  | some (some j) => (j, [])

/-- `APILimiter.__init__` together with the session-state initialisation:
loads the usage data and sets the session counter to 0 when the session has
no `user_api_calls` key yet. Returns the constructed state and the diagnostics
surfaced during loading; construction itself never raises. -/
def init_limiter (ul tl : Int) (today : String) (file : Option (Option Json))
    (session : Option Int) : LimState × List Diag :=
  let p := load_usage_data today file
  ({ daily_user_limit := ul, daily_total_limit := tl, usage_data := p.1,
     user_api_calls := session.getD 0, file := file }, p.2)

/-- `APILimiter._save_usage_data`: overwrite the storage file with the current
in-memory record. (The source catches write errors and keeps the in-memory
state; the success path is modelled.) -/
def save_usage_data (s : LimState) : LimState :=
  { s with file := some (some s.usage_data) }

/-- `APILimiter._reset_if_new_day`: when `usage_data['date']` differs from
today, replace the record by `{'date': today, 'total_calls': 0}`, zero the
session counter, and save. The `['date']` subscript can raise. -/
def reset_if_new_day (today : String) (s : LimState) : Except PyErr LimState :=
  match s.usage_data.getItem "date" with
  | Except.error e => Except.error e
  | Except.ok d =>
    if pyEqStr d today then Except.ok s
    else Except.ok (save_usage_data
      { s with usage_data := mkRecord today 0, user_api_calls := 0 })

/-- `APILimiter.check_limits`: run day rollover, then test the session counter
against the per-identity limit (warning message), then `total_calls` against
the global limit (error message). Returns the post-rollover state, the
allowed flag, and the emitted diagnostics. -/
def check_limits (today : String) (s : LimState) :
    Except PyErr (LimState × Bool × List Diag) :=
  match reset_if_new_day today s with
  | Except.error e => Except.error e
  | Except.ok s1 =>
    if s1.user_api_calls ≥ s1.daily_user_limit then
      Except.ok (s1, false, [Diag.warning (userLimitMsg s1.daily_user_limit)])
    else
      match s1.usage_data.getItem "total_calls" with
      | Except.error e => Except.error e
      | Except.ok tc =>
        match jsonGeInt tc s1.daily_total_limit with
        | Except.error e => Except.error e
        | Except.ok b =>
          if b then
            Except.ok (s1, false,
              [Diag.errorMsg (totalLimitMsg s1.daily_total_limit)])
          else Except.ok (s1, true, [])

/-- `APILimiter.increment_usage`: add 1 to the session counter, then
`usage_data['total_calls'] += 1` (subscript read, add, subscript write),
then save. No limit is re-checked anywhere. -/
def increment_usage (s : LimState) : Except PyErr LimState :=
  let s1 := { s with user_api_calls := s.user_api_calls + 1 }
  match s1.usage_data.getItem "total_calls" with
  | Except.error e => Except.error e
  | Except.ok tc =>
    match jsonAdd1 tc with
    | Except.error e => Except.error e
    | Except.ok tc' =>
      match s1.usage_data.setItem "total_calls" tc' with
      | Except.error e => Except.error e
      | Except.ok ud => Except.ok (save_usage_data { s1 with usage_data := ud })

/-- `APILimiter.display_usage_stats`: run day rollover, read
`usage_data['total_calls']` for the sidebar text, and compute the progress
ratio `user_api_calls / daily_user_limit` (which raises on a zero limit).
The sidebar strings themselves are not modelled; the function returns the
post-rollover state and the displayed `total_calls` value. -/
def display_usage_stats (today : String) (s : LimState) :
    Except PyErr (LimState × Json) :=
  match reset_if_new_day today s with
  | Except.error e => Except.error e
  | Except.ok s1 =>
    match s1.usage_data.getItem "total_calls" with
    | Except.error e => Except.error e
    | Except.ok tc =>
      if s1.daily_user_limit = 0 then Except.error PyErr.zeroDivisionError
      else Except.ok (s1, tc)

/-- Serialized sequence of `increment_usage` calls (no rollover in between:
all calls happen within one simulated day). -/
def iterIncrement : Nat → LimState → Except PyErr LimState
  | 0, s => Except.ok s
  | n + 1, s =>
    match increment_usage s with
    | Except.error e => Except.error e
    | Except.ok s' => iterIncrement n s'

/-!
Embedding of `APICredentialsManager` (`api_credentials.py`). Only the parts
the claims exercise are modelled: the session-state credential store,
`clear_service_credentials`, and `get_credentials` with its environment
fallback. The environment is a function from variable names to
`Option String` (`os.getenv`).
-/

/-- The Streamlit session state owned by `APICredentialsManager`:
`using_own_credentials` (a dict with exactly the keys `'aws'`/`'openai'`) and
`user_credentials` (two string-valued dicts). -/
structure CredSession where
  using_own_aws : Bool
  using_own_openai : Bool
  user_aws : List (String × String)
  user_openai : List (String × String)

/-- Python `d[k]` on a string-valued dict. -/
def dictGet (d : List (String × String)) (k : String) : Except PyErr String :=
  match d.lookup k with
  | some v => Except.ok v
  | none => Except.error (PyErr.keyError k)

/-- `st.session_state.using_own_credentials.get(service)`: the dict holds only
the keys `'aws'` and `'openai'`, so `.get` yields `None` (falsy) otherwise. -/
def usingOwnGet (st : CredSession) (service : String) : Bool :=
  if service == "aws" then st.using_own_aws
  else if service == "openai" then st.using_own_openai
  else false

/-- `APICredentialsManager.clear_service_credentials`: set the service's
`using_own_credentials` flag to `False` and empty its credential dict.
(The source is only ever called with `'aws'` or `'openai'`.) -/
def clear_service_credentials (service : String) (st : CredSession) :
    CredSession :=
  if service == "aws" then { st with using_own_aws := false, user_aws := [] }
  else if service == "openai" then
    { st with using_own_openai := false, user_openai := [] }
  else st

/-- The caller-supplied AWS credentials dict built in `get_credentials`
(the three subscript reads, in source order, each of which can raise). -/
def awsUserCreds (st : CredSession) :
    Except PyErr (List (String × Option String)) :=
  match dictGet st.user_aws "access_key_id" with
  | Except.error e => Except.error e
  | Except.ok ak =>
    match dictGet st.user_aws "secret_key" with
    | Except.error e => Except.error e
    | Except.ok sk =>
      match dictGet st.user_aws "region" with
      | Except.error e => Except.error e
      | Except.ok rg =>
        Except.ok [("aws_access_key_id", some ak),
                   ("aws_secret_access_key", some sk),
                   ("region_name", some rg)]

/-- The caller-supplied OpenAI credentials dict built in `get_credentials`. -/
def openaiUserCreds (st : CredSession) :
    Except PyErr (List (String × Option String)) :=
  match dictGet st.user_openai "api_key" with
  | Except.error e => Except.error e
  | Except.ok k => Except.ok [("api_key", some k)]

/-- The caller-supplied credentials dict per service, as `get_credentials`
builds it (`[]` for an unknown service, matching the final `return {}`). -/
def userCredsFor (st : CredSession) (service : String) :
    Except PyErr (List (String × Option String)) :=
  if service == "aws" then awsUserCreds st
  else if service == "openai" then openaiUserCreds st
  else Except.ok []

/-- The operator-default credentials sourced from the environment: the
fallback branch of `get_credentials` (`os.getenv`, with the `'eu-west-1'`
default for the region). -/
def defaultCreds (env : String → Option String) (service : String) :
    List (String × Option String) :=
  if service == "aws" then
    [("aws_access_key_id", env "AWS_ACCESS_KEY_ID"),
     ("aws_secret_access_key", env "AWS_SECRET_ACCESS_KEY"),
     ("region_name", some ((env "AWS_REGION").getD "eu-west-1"))]
  else if service == "openai" then [("api_key", env "OPENAI_API_KEY")]
  else []

/-- `APICredentialsManager.get_credentials`: caller-supplied credentials when
the service is marked in use (clearing them in the same call), otherwise the
environment-sourced defaults; `{}` for an unknown service. Returns the
post-call session state with the credentials. -/
def get_credentials (env : String → Option String) (service : String)
    (st : CredSession) :
    Except PyErr (CredSession × List (String × Option String)) :=
  if usingOwnGet st service then
    if service == "aws" then
      match awsUserCreds st with
      | Except.error e => Except.error e
      | Except.ok creds =>
        Except.ok (clear_service_credentials "aws" st, creds)
    else if service == "openai" then
      match openaiUserCreds st with
      | Except.error e => Except.error e
      | Except.ok creds =>
        Except.ok (clear_service_credentials "openai" st, creds)
    else Except.ok (st, defaultCreds env service)
  else Except.ok (st, defaultCreds env service)

/-! Helper lemmas shared by the claim theorems. -/

theorem getItem_mkRecord_date (d : String) (n : Int) :
    (mkRecord d n).getItem "date" = Except.ok (Json.str d) := rfl

theorem getItem_mkRecord_total (d : String) (n : Int) :
    (mkRecord d n).getItem "total_calls" = Except.ok (Json.num n) := rfl

theorem reset_same_day {today : String} {s : LimState} {n : Int}
    (hud : s.usage_data = mkRecord today n) :
    reset_if_new_day today s = Except.ok s := by
  unfold reset_if_new_day
  rw [hud, getItem_mkRecord_date]
  simp [pyEqStr]

theorem reset_new_day {today d : String} {s : LimState} {n : Int}
    (hud : s.usage_data = mkRecord d n) (hne : d ≠ today) :
    reset_if_new_day today s = Except.ok (save_usage_data
      { s with usage_data := mkRecord today 0, user_api_calls := 0 }) := by
  unfold reset_if_new_day
  rw [hud, getItem_mkRecord_date]
  simp [pyEqStr, hne]

theorem increment_usage_mkRecord {s : LimState} {d : String} {m : Int}
    (hud : s.usage_data = mkRecord d m) :
    increment_usage s = Except.ok
      { s with usage_data := mkRecord d (m + 1),
               user_api_calls := s.user_api_calls + 1,
               file := some (some (mkRecord d (m + 1))) } := by
  unfold increment_usage save_usage_data
  simp only [hud]
  rfl

/-! Concrete states used by the witness theorems. -/

def W1 : LimState :=
  { daily_user_limit := 10, daily_total_limit := 100,
    usage_data := mkRecord "2024-06-01" 3, user_api_calls := 2,
    file := some (some (mkRecord "2024-06-01" 3)) }

def W2 : LimState :=
  { daily_user_limit := 10, daily_total_limit := 100,
    usage_data := mkRecord "2024-06-01" 5, user_api_calls := 4,
    file := some (some (mkRecord "2024-06-01" 5)) }

def W3 : LimState :=
  { daily_user_limit := 10, daily_total_limit := 100,
    usage_data := mkRecord "2024-06-01" 0, user_api_calls := 0,
    file := none }

def W4 : LimState :=
  { daily_user_limit := 10, daily_total_limit := 100,
    usage_data := mkRecord "2024-06-01" 7, user_api_calls := 4,
    file := some (some (mkRecord "2024-06-01" 7)) }

/-- C1: after day rollover has run (the record is dated today), `check_limits`
returns not-allowed with the per-identity quota message whenever the session
counter has reached the per-identity limit — regardless of the global
counter `n` — else not-allowed with the global quota message whenever
`total_calls` has reached the global limit, else allowed; the per-identity
test is made strictly before the global one (the first branch does not
inspect `n`). -/
theorem check_limits_order_and_outcomes (today : String) (s : LimState)
    (n : Int) (hud : s.usage_data = mkRecord today n) :
    check_limits today s =
      if s.user_api_calls ≥ s.daily_user_limit then
        Except.ok (s, false, [Diag.warning (userLimitMsg s.daily_user_limit)])
      else if n ≥ s.daily_total_limit then
        Except.ok (s, false,
          [Diag.errorMsg (totalLimitMsg s.daily_total_limit)])
      else Except.ok (s, true, []) := by
  unfold check_limits
  rw [reset_same_day hud]
  dsimp only
  rw [hud, getItem_mkRecord_total]
  dsimp only [jsonGeInt]
  by_cases h1 : s.user_api_calls ≥ s.daily_user_limit
  · simp [h1]
  · by_cases h2 : n ≥ s.daily_total_limit <;> simp [h1, h2]

/-- C1 witness: a concrete state dated today with session counter 2 < 10 and
total 3 < 100 is allowed. -/
theorem check_limits_order_and_outcomes_witness :
    check_limits "2024-06-01" W1 = Except.ok (W1, true, []) := by
  rw [check_limits_order_and_outcomes "2024-06-01" W1 3 rfl]
  rfl

/-- C2: a single `increment_usage` call unconditionally adds exactly 1 to the
session counter and exactly 1 to `total_calls` (no limit field is consulted),
persists the new record to the file, and changes nothing else: the date, both
limits and all other state components are untouched. -/
theorem increment_usage_unconditional (s : LimState) (d : String) (m : Int)
    (hud : s.usage_data = mkRecord d m) :
    increment_usage s = Except.ok
      { s with usage_data := mkRecord d (m + 1),
               user_api_calls := s.user_api_calls + 1,
               file := some (some (mkRecord d (m + 1))) } :=
  increment_usage_mkRecord hud

/-- C2 witness at a concrete state: counters 4/5 become 5/6 and the new
record is persisted. -/
theorem increment_usage_unconditional_witness :
    increment_usage W2 = Except.ok
      { W2 with usage_data := mkRecord "2024-06-01" 6,
                user_api_calls := 5,
                file := some (some (mkRecord "2024-06-01" 6)) } :=
  increment_usage_unconditional W2 "2024-06-01" 5 rfl

/-- Induction helper for C3: `N` serialized `increment_usage` calls advance
`total_calls` from `m` to `m + N` and always succeed on a well-formed
record. -/
theorem iterIncrement_mkRecord (N : Nat) (s : LimState) (d : String) (m : Int)
    (hud : s.usage_data = mkRecord d m) :
    ∃ s', iterIncrement N s = Except.ok s' ∧
      s'.usage_data = mkRecord d (m + N) := by
  induction N generalizing s m with
  | zero => exact ⟨s, rfl, by simpa using hud⟩
  | succ k ih =>
    obtain ⟨s', hs', hud'⟩ := ih
      { s with usage_data := mkRecord d (m + 1),
               user_api_calls := s.user_api_calls + 1,
               file := some (some (mkRecord d (m + 1))) } (m + 1) rfl
    refine ⟨s', ?_, ?_⟩
    · unfold iterIncrement
      rw [increment_usage_mkRecord hud]
      exact hs'
    · rw [hud']
      congr 1
      push_cast
      ring

/-- C3: starting from a record with zero calls, `N` serialized
`increment_usage` calls within one simulated day leave
`total_calls = N` — no call is lost. -/
theorem total_calls_after_n_records (N : Nat) (s : LimState) (d : String)
    (hud : s.usage_data = mkRecord d 0) :
    ∃ s', iterIncrement N s = Except.ok s' ∧
      s'.usage_data.getItem "total_calls" = Except.ok (Json.num N) := by
  obtain ⟨s', h1, h2⟩ := iterIncrement_mkRecord N s d 0 hud
  refine ⟨s', h1, ?_⟩
  rw [h2, getItem_mkRecord_total]
  norm_num

/-- C3 witness: three records from a fresh state leave `total_calls = 3`. -/
theorem total_calls_after_n_records_witness :
    ∃ s', iterIncrement 3 W3 = Except.ok s' ∧
      s'.usage_data.getItem "total_calls" = Except.ok (Json.num 3) := by
  exact_mod_cast total_calls_after_n_records 3 W3 "2024-06-01" rfl

/-- C4: day rollover on a record dated `d` is the identity when `d` is today,
and otherwise replaces the record with today's fresh zeroed record, zeroes
the session counter, and persists the fresh record. -/
theorem reset_if_new_day_rollover (today d : String) (s : LimState) (n : Int)
    (hud : s.usage_data = mkRecord d n) :
    reset_if_new_day today s =
      if d = today then Except.ok s
      else Except.ok { s with usage_data := mkRecord today 0,
                              user_api_calls := 0,
                              file := some (some (mkRecord today 0)) } := by
  by_cases h : d = today
  · subst h
    rw [reset_same_day hud]
    simp
  · rw [reset_new_day hud h]
    simp [h, save_usage_data]

/-- C4 witness: a stale record dated 2024-06-01 is replaced on 2024-06-02 and
the session counter zeroed; the fresh record is persisted. -/
theorem reset_if_new_day_rollover_witness :
    reset_if_new_day "2024-06-02" W4 =
      Except.ok { W4 with usage_data := mkRecord "2024-06-02" 0,
                          user_api_calls := 0,
                          file := some (some (mkRecord "2024-06-02" 0)) } := by
  rw [reset_if_new_day_rollover "2024-06-02" "2024-06-01" W4 7 rfl]
  rfl

/-- C5: once the record is dated today (the state after the first rollover of
the day, however far the counters have advanced since), a further rollover is
the identity, and further `check_limits` and `display_usage_stats` calls
return the state unchanged — counters already advanced that day are not
re-reset. -/
theorem rollover_idempotent (today : String) (s : LimState) (n : Int)
    (hud : s.usage_data = mkRecord today n) (hpos : s.daily_user_limit ≠ 0) :
    reset_if_new_day today s = Except.ok s ∧
    (∃ b ds, check_limits today s = Except.ok (s, b, ds)) ∧
    display_usage_stats today s = Except.ok (s, Json.num n) := by
  refine ⟨reset_same_day hud, ?_, ?_⟩
  · unfold check_limits
    rw [reset_same_day hud]
    dsimp only
    rw [hud, getItem_mkRecord_total]
    dsimp only [jsonGeInt]
    by_cases h1 : s.user_api_calls ≥ s.daily_user_limit
    · exact ⟨false, [Diag.warning (userLimitMsg s.daily_user_limit)],
        by simp [h1]⟩
    · by_cases h2 : n ≥ s.daily_total_limit
      · exact ⟨false, [Diag.errorMsg (totalLimitMsg s.daily_total_limit)],
          by simp [h1, h2]⟩
      · exact ⟨true, [], by simp [h1, h2]⟩
  · unfold display_usage_stats
    rw [reset_same_day hud]
    dsimp only
    rw [hud, getItem_mkRecord_total]
    simp [hpos]

/-- C5 witness: on the concrete state `W1` already dated today, rollover,
check and stats all leave the state untouched. -/
theorem rollover_idempotent_witness :
    reset_if_new_day "2024-06-01" W1 = Except.ok W1 ∧
    (∃ b ds, check_limits "2024-06-01" W1 = Except.ok (W1, b, ds)) ∧
    display_usage_stats "2024-06-01" W1 = Except.ok (W1, Json.num 3) :=
  rollover_idempotent "2024-06-01" W1 3 rfl (by decide)

/-- C6 counterexample: constructing the limiter over a missing storage file
falls back to the fresh record silently — the surfaced diagnostics list is
empty, so no non-fatal diagnostic is surfaced in that case. -/
theorem missing_file_no_diagnostic :
    (init_limiter 10 100 "2024-06-01" none none).1.usage_data =
      mkRecord "2024-06-01" 0 ∧
    (init_limiter 10 100 "2024-06-01" none none).2 = [] :=
  ⟨rfl, rfl⟩

/-- C6 amended: for a missing, unreadable, or unparsable storage file,
construction yields the fresh in-memory record dated today with zero calls
and never raises (the load path catches every exception, so the model is a
total function); a failed read or parse of an existing file surfaces exactly
one non-fatal error diagnostic, while a missing file falls back silently with
no diagnostic at all. -/
theorem construction_soft_fail (ul tl : Int) (today : String)
    (sess : Option Int) :
    (init_limiter ul tl today none sess).1.usage_data = mkRecord today 0 ∧
    (init_limiter ul tl today none sess).2 = [] ∧
    (init_limiter ul tl today (some none) sess).1.usage_data =
      mkRecord today 0 ∧
    (init_limiter ul tl today (some none) sess).2 =
      [Diag.errorMsg loadErrMsg] :=
  ⟨rfl, rfl, rfl, rfl⟩

/-- C7 counterexample: a successful read of a stale-but-valid record (dated
2024-01-01, read on 2024-01-02) adopts the record with no diagnostic, so
right after the read path `UsageRecord.date` IS behind today's date. -/
theorem stale_record_after_successful_read :
    (init_limiter 10 100 "2024-01-02"
        (some (some (mkRecord "2024-01-01" 5))) none).1.usage_data =
      mkRecord "2024-01-01" 5 ∧
    (init_limiter 10 100 "2024-01-02"
        (some (some (mkRecord "2024-01-01" 5))) none).2 = [] ∧
    "2024-01-01" ≠ "2024-01-02" :=
  ⟨rfl, rfl, by decide⟩

/-- C7 amended: a successful read adopts the stored record verbatim, so its
date is the last day for which `total_calls` was accumulated — possibly
strictly behind (or ahead of) today until the next access; once the first
rollover runs (at the next check or stats call), the date equals today. -/
theorem read_adopts_record_rollover_sets_today (ul tl : Int)
    (today d : String) (n : Int) (sess : Option Int) :
    (init_limiter ul tl today (some (some (mkRecord d n))) sess).1.usage_data
      = mkRecord d n ∧
    ∃ s', reset_if_new_day today
        (init_limiter ul tl today (some (some (mkRecord d n))) sess).1 =
        Except.ok s' ∧
      s'.usage_data.getItem "date" = Except.ok (Json.str today) := by
  refine ⟨rfl, ?_⟩
  by_cases h : d = today
  · subst h
    exact ⟨_, reset_same_day rfl, getItem_mkRecord_date _ _⟩
  · exact ⟨_, reset_new_day rfl h, getItem_mkRecord_date today 0⟩

/-- C8: whenever `check_limits` returns not-allowed, the state it returns is
exactly the post-rollover state: the session counter, `total_calls` and the
persisted file are untouched by the check itself, beyond any day rollover
that ran first. -/
theorem check_not_allowed_no_side_effects (today : String)
    (s s' : LimState) (ds : List Diag)
    (h : check_limits today s = Except.ok (s', false, ds)) :
    reset_if_new_day today s = Except.ok s' := by
  unfold check_limits at h
  cases hr : reset_if_new_day today s with
  | error e =>
    rw [hr] at h
    simp at h
  | ok s1 =>
    rw [hr] at h
    dsimp only at h
    split at h
    · simp only [Except.ok.injEq, Prod.mk.injEq] at h
      rw [← h.1]
    · split at h
      · simp at h
      · split at h
        · simp at h
        · split at h
          · simp only [Except.ok.injEq, Prod.mk.injEq] at h
            rw [← h.1]
          · simp at h

/-- Concrete over-quota state for the C8 witness. -/
def W8 : LimState :=
  { daily_user_limit := 10, daily_total_limit := 100,
    usage_data := mkRecord "2024-06-01" 50, user_api_calls := 10,
    file := some (some (mkRecord "2024-06-01" 50)) }

/-- C8 witness: a concrete over-quota session (10 of 10 used): the check is
refused and the returned state is the unchanged input state. -/
theorem check_not_allowed_no_side_effects_witness :
    reset_if_new_day "2024-06-01" W8 = Except.ok W8 :=
  check_not_allowed_no_side_effects "2024-06-01" W8 W8
    [Diag.warning (userLimitMsg 10)] rfl

/-- C9: for a service in {aws, openai} whose caller-supplied credentials are
present (`userCredsFor` succeeds) and marked in use, `get_credentials`
returns exactly those caller-supplied credentials and clears them in the same
call; the immediately following `get_credentials` call on the resulting state
finds the in-use flag cleared and returns the operator-default,
environment-sourced credentials instead. -/
theorem credentials_one_shot (env : String → Option String)
    (st : CredSession) (service : String)
    (creds : List (String × Option String))
    (hs : service = "aws" ∨ service = "openai")
    (hin : usingOwnGet st service = true)
    (hcreds : userCredsFor st service = Except.ok creds) :
    get_credentials env service st =
      Except.ok (clear_service_credentials service st, creds) ∧
    usingOwnGet (clear_service_credentials service st) service = false ∧
    get_credentials env service (clear_service_credentials service st) =
      Except.ok (clear_service_credentials service st,
        defaultCreds env service) := by
  rcases hs with h | h <;> subst h
  · have hc : awsUserCreds st = Except.ok creds := hcreds
    have hb : st.using_own_aws = true := hin
    refine ⟨?_, ?_, ?_⟩
    · simp [get_credentials, usingOwnGet, hb, hc]
    · simp [usingOwnGet, clear_service_credentials]
    · simp [get_credentials, usingOwnGet, clear_service_credentials]
  · have hc : openaiUserCreds st = Except.ok creds := hcreds
    have hb : st.using_own_openai = true := hin
    refine ⟨?_, ?_, ?_⟩
    · simp [get_credentials, usingOwnGet, hb, hc]
    · simp [usingOwnGet, clear_service_credentials]
    · simp [get_credentials, usingOwnGet, clear_service_credentials]

/-- Concrete session for the C9 witness: caller-supplied OpenAI key present
and marked in use. -/
def credW : CredSession :=
  { using_own_aws := false, using_own_openai := true,
    user_aws := [], user_openai := [("api_key", "caller-key")] }

/-- Concrete environment for the C9 witness. -/
def envW : String → Option String :=
  fun k => if k == "OPENAI_API_KEY" then some "operator-key" else none

/-- C9 witness: the caller-supplied OpenAI key is returned once and cleared;
the second call returns the environment default. -/
theorem credentials_one_shot_witness :
    get_credentials envW "openai" credW =
      Except.ok (clear_service_credentials "openai" credW,
        [("api_key", some "caller-key")]) ∧
    usingOwnGet (clear_service_credentials "openai" credW) "openai" =
      false ∧
    get_credentials envW "openai" (clear_service_credentials "openai" credW) =
      Except.ok (clear_service_credentials "openai" credW,
        defaultCreds envW "openai") :=
  credentials_one_shot envW credW "openai" [("api_key", some "caller-key")]
    (Or.inr rfl) rfl rfl

/-- C10: syntactically valid JSON that is not an object with a `date` key is
adopted verbatim by construction — no fallback to a fresh record, no
diagnostic — and the next `check_limits` or `display_usage_stats` call then
raises at the `['date']` subscript: `KeyError 'date'` for an object lacking
the key, `TypeError` for a JSON list (string subscript on a list); the
soft-fail storage recovery does not cover well-formed JSON of the wrong
shape. -/
theorem malformed_json_adopted_then_lookup_fails :
    (init_limiter 10 100 "2024-06-01"
        (some (some (Json.obj [("foo", Json.num 1)]))) none).1.usage_data =
      Json.obj [("foo", Json.num 1)] ∧
    (init_limiter 10 100 "2024-06-01"
        (some (some (Json.obj [("foo", Json.num 1)]))) none).2 = [] ∧
    check_limits "2024-06-01"
        (init_limiter 10 100 "2024-06-01"
          (some (some (Json.obj [("foo", Json.num 1)]))) none).1 =
      Except.error (PyErr.keyError "date") ∧
    display_usage_stats "2024-06-01"
        (init_limiter 10 100 "2024-06-01"
          (some (some (Json.obj [("foo", Json.num 1)]))) none).1 =
      Except.error (PyErr.keyError "date") ∧
    (init_limiter 10 100 "2024-06-01"
        (some (some (Json.arr [Json.num 1, Json.num 2]))) none).1.usage_data =
      Json.arr [Json.num 1, Json.num 2] ∧
    check_limits "2024-06-01"
        (init_limiter 10 100 "2024-06-01"
          (some (some (Json.arr [Json.num 1, Json.num 2]))) none).1 =
      Except.error PyErr.typeError ∧
    display_usage_stats "2024-06-01"
        (init_limiter 10 100 "2024-06-01"
          (some (some (Json.arr [Json.num 1, Json.num 2]))) none).1 =
      Except.error PyErr.typeError :=
  ⟨rfl, rfl, rfl, rfl, rfl, rfl, rfl⟩
